import Mathlib

/-!
Verification of the quiz-generator application (src/quizapp.py).

The Python program is embedded shallowly:
* JSON values produced by `json.loads` are modelled by the inductive type
  `JVal`; JSON objects (Python dicts) are association lists with the keys
  looked up by `List.lookup`.
* The outcome of `json.loads(response.text)` is modelled as an
  `Option JVal`: `none` stands for a raised `json.JSONDecodeError`, while
  `some v` is the successfully parsed value.  The external model call
  itself is outside the program, so the parse outcome is a parameter.
* A Python expression that raises an uncaught exception is modelled by the
  `Except.error` branch (carrying the exception name) or by `Option.none`
  where only one failure is possible.
* Python floats are modelled by exact rationals `ℚ`; every percentage the
  program computes is a small rational, and the tier comparisons are exact.
* The per-session Streamlit state (`st.session_state`) is the structure
  `SessionState`; each user interaction is a step of the relation `Step`.
-/

namespace QuizApp

/-- A JSON value, as returned by `json.loads`: objects are association
lists of string keys, arrays are lists, and the scalar cases follow the
JSON grammar. -/
inductive JVal where
  | null
  | bool (b : Bool)
  | num (n : Int)
  | str (s : String)
  | arr (elems : List JVal)
  | obj (fields : List (String × JVal))

/-- Python `fields.get(key, dflt)` on a dict: the value under `key` when
present, the default otherwise. -/
def dict_get (fields : List (String × JVal)) (key : String) (dflt : JVal) : JVal :=
  match fields.lookup key with
  | some v => v
  | none => dflt

/-- The parsing tail of `fetch_questions` (src/quizapp.py lines 73-77),
applied to the outcome of `json.loads(response.text)`:

* `none` (a `json.JSONDecodeError`) is caught by the `except` clause and
  the function returns the empty list;
* a parsed dict answers `.get("mcqs", [])`, so the value under the key
  `mcqs` is returned, defaulting to the empty list;
* any other parsed value (list, string, number, boolean, null) has no
  `.get` method, so the attribute access raises an `AttributeError` that
  the `except json.JSONDecodeError` clause does not catch. -/
def fetch_questions_result (parsed : Option JVal) : Except String JVal :=
  match parsed with
  | none => Except.ok (JVal.arr [])
  | some (JVal.obj fields) => Except.ok (dict_get fields ("mcqs") (JVal.arr []))
  | some _ => Except.error ("AttributeError")

/-- One multiple-choice question as the program consumes it: the dict
keys `mcq`, `options` (option key to option text) and `correct`. -/
structure Question where
  mcq : String
  options : List (String × String)
  correct : String
  deriving DecidableEq

/-- The JSON encoding of a question object in the shape the prompt
requests: keys `mcq`, `options` and `correct`. -/
def encodeQuestion (q : Question) : JVal :=
  JVal.obj [(("mcq"), JVal.str q.mcq),
            (("options"), JVal.obj (q.options.map (fun p => (p.1, JVal.str p.2)))),
            (("correct"), JVal.str q.correct)]

/-- Decodes the entries of a JSON `options` object back to the option
mapping; fails when a value is not a string. -/
def decodeOptionEntries : List (String × JVal) → Option (List (String × String))
  | [] => some []
  | (k, JVal.str v) :: rest => (decodeOptionEntries rest).map (fun l => (k, v) :: l)
  | _ => none

/-- Decodes a JSON question object of the requested shape back to a
`Question`; any other shape fails. -/
def decodeQuestion : JVal → Option Question
  | JVal.obj [(("mcq"), JVal.str m), (("options"), JVal.obj opts), (("correct"), JVal.str c)] =>
      (decodeOptionEntries opts).map (fun l => { mcq := m, options := l, correct := c })
  | _ => none

/-- The literal output of `json.dumps(RESPONSE_JSON, indent=2)` for the
sample schema dict defined in `fetch_questions` (lines 46-59). -/
def RESPONSE_JSON_dump : String :=
  "\x7b\n  \"mcqs\": [\n    \x7b\n      \"mcq\": \"Sample question\",\n      \"options\": \x7b\n        \"a\": \"Option 1\",\n        \"b\": \"Option 2\",\n        \"c\": \"Option 3\",\n        \"d\": \"Option 4\"\n      \x7d,\n      \"correct\": \"a\"\n    \x7d\n  ]\n\x7d"

/-- The literal template text of the f-string before the interpolated
question count. -/
def promptPart1 : String :=
  "\n    You are an expert in generating MCQ quizzes based on provided content.\n    Given the text below, generate a quiz with "

/-- The literal template text between the question count and the
difficulty label. -/
def promptPart2 : String :=
  " multiple-choice questions at the \x27"

/-- The literal template text between the difficulty label and the
source text. -/
def promptPart3 : String :=
  "\x27 difficulty level.\n\n    Text: "

/-- The literal template text between the source text and the dumped
schema. -/
def promptPart4 : String :=
  "\n\n    The format should strictly match this JSON:\n    "

/-- The literal template text after the dumped schema. -/
def promptPart5 : String :=
  "\n    "

/-- The f-string `PROMPT_TEMPLATE` of `fetch_questions` (lines 61-69):
the literal template text with the question count, the difficulty label,
the source text and the dumped schema interpolated. -/
def PROMPT_TEMPLATE (text_content quiz_level : String) (num_questions : Nat) : String :=
  promptPart1 ++ toString num_questions ++ promptPart2 ++ quiz_level
    ++ promptPart3 ++ text_content ++ promptPart4 ++ RESPONSE_JSON_dump ++ promptPart5

/-- The string `needle` occurs contiguously inside `haystack`, stated on
the underlying character lists. -/
def dataContains (needle haystack : String) : Prop :=
  ∃ s t : List Char, s ++ needle.data ++ t = haystack.data

/-- The per-session Streamlit state: the fetched question list
(`st.session_state.questions`), the recorded selections
(`st.session_state.selected_options`, a dict from question index to the
stored option key, modelled as an association list), and the
`st.session_state.quiz_generated` flag. -/
structure SessionState where
  questions : List Question
  selected_options : List (Nat × String)
  quiz_generated : Bool
  deriving DecidableEq

/-- The session state at session start (lines 100-104): the flag is
false, no selections are recorded, and no questions exist yet. -/
def initialState : SessionState :=
  { questions := [], selected_options := [], quiz_generated := false }

/-- The effect of the generate button (lines 107-111): the question list
is replaced by the freshly fetched list, the flag is set, and the
selections dict is reset to empty.  The prior state is ignored. -/
def generateAction (_s : SessionState) (fetched : List Question) : SessionState :=
  { questions := fetched, selected_options := [], quiz_generated := true }

/-- Python `s.split(":")[0]`: the portion of `s` before the first colon
(all of `s` when no colon occurs). -/
def splitColonFirst (s : String) : String :=
  String.mk (s.data.takeWhile (fun c => c ≠ ':'))

/-- The radio label built for one option (line 123): `f"{key}: {value}"`. -/
def formattedOption (key value : String) : String :=
  key ++ ": " ++ value

/-- Python dict assignment `selected_options[i] = v`, modelled so that
`List.lookup` sees the updated binding and every other key unchanged. -/
def recordSelection (sel : List (Nat × String)) (i : Nat) (v : String) : List (Nat × String) :=
  (i, v) :: sel.filter (fun p => p.1 != i)

/-- The effect of choosing an option for question `i` (lines 126-135):
the stored value is the part of the radio label before the first colon,
written into the selections dict.  Only the selections change. -/
def selectAction (s : SessionState) (i : Nat) (key value : String) : SessionState :=
  { s with selected_options :=
      recordSelection s.selected_options i (splitColonFirst (formattedOption key value)) }

/-- The effect of the reset button (lines 180-183): the flag is cleared
and the selections dict is emptied.  The question list is not touched. -/
def resetAction (s : SessionState) : SessionState :=
  { s with quiz_generated := false, selected_options := [] }

/-- One user interaction, as the rerun-per-interaction model executes it:
generating (always available), choosing an option (only while the quiz is
shown, for a rendered question and one of its rendered radio labels), and
resetting (only while the quiz is shown). -/
inductive Step : SessionState → SessionState → Prop where
  | generate (s : SessionState) (fetched : List Question) :
      Step s (generateAction s fetched)
  | selectOption (s : SessionState) (i : Nat) (key value : String)
      (hg : s.quiz_generated = true) (hi : i < s.questions.length)
      (hk : (key, value) ∈ (s.questions.get ⟨i, hi⟩).options) :
      Step s (selectAction s i key value)
  | reset (s : SessionState) (hg : s.quiz_generated = true) :
      Step s (resetAction s)

/-- A session state the program can actually be in: reachable from the
start state by user interactions. -/
def Reachable (s : SessionState) : Prop :=
  Relation.ReflTransGen Step initialState s

/-- Every recorded selection key is the index of a current question. -/
def selectionsKeysValid (s : SessionState) : Prop :=
  ∀ p ∈ s.selected_options, p.1 < s.questions.length

/-- Every stored question names a correct-answer key that its own options
dict contains, so the display lookup `question["options"][correct]`
(line 156) succeeds. -/
def correctKeysValid (s : SessionState) : Prop :=
  ∀ q ∈ s.questions, (q.options.lookup q.correct).isSome = true

/-- The body of the scoring loop for one question (lines 148-159): one
mark exactly when the stored selection equals the correct key. -/
def questionMark (sel : List (Nat × String)) (i : Nat) (q : Question) : Nat :=
  if sel.lookup i = some q.correct then 1 else 0

/-- The aggregated mark count of the scoring loop (lines 141-159). -/
def marksOf (qs : List Question) (sel : List (Nat × String)) : Nat :=
  qs.enum.foldl (fun marks p => marks + questionMark sel p.1 p.2) 0

/-- The score percentage of line 162,
`(marks / len(questions)) * 100`, as an exact rational; `none` models
the `ZeroDivisionError` raised when the question list is empty. -/
def score_percentage (qs : List Question) (sel : List (Nat × String)) : Option ℚ :=
  if qs.length = 0 then none
  else some (((marksOf qs sel : ℚ)) / ((qs.length : ℚ)) * 100)

/-- Which of the two per-question result lines is shown (lines 151-154):
either the chosen key is echoed, or the message that no answer was
selected. -/
inductive AnswerReport where
  | selectedAnswer (k : String)
  | noAnswer
  deriving DecidableEq

/-- The display branch of lines 151-154.  Python tests
`if selected_letter:`, which is false both for a missing key and for the
empty string, so an empty stored key is reported as no answer. -/
def reportOf (sel : List (Nat × String)) (i : Nat) : AnswerReport :=
  match sel.lookup i with
  | some k => if k = "" then AnswerReport.noAnswer else AnswerReport.selectedAnswer k
  | none => AnswerReport.noAnswer

/-- The four feedback branches of lines 170-177, in source order. -/
inductive FeedbackTier where
  | topTier
  | highTier
  | midTier
  | lowTier
  deriving DecidableEq

/-- The feedback selection of lines 170-177: the chained comparisons on
the score percentage, first match wins. -/
def feedback (p : ℚ) : FeedbackTier :=
  if p = 100 then FeedbackTier.topTier
  else if p ≥ 80 then FeedbackTier.highTier
  else if p ≥ 50 then FeedbackTier.midTier
  else FeedbackTier.lowTier

/-- A concrete well-formed question used to instantiate theorems. -/
def sampleQuestion : Question :=
  { mcq := "q", options := [(("a"), ("A")), (("b"), ("B"))], correct := "a" }

/-- A concrete question whose correct key is absent from its options. -/
def badQuestion : Question :=
  { mcq := "q", options := [(("a"), ("A"))], correct := "e" }

/-- Helper: decoding the encoded options recovers them unchanged. -/
theorem decodeOptionEntries_map (opts : List (String × String)) :
    decodeOptionEntries (opts.map (fun p => (p.1, JVal.str p.2))) = some opts := by
  induction opts with
  | nil => rfl
  | cons p rest ih =>
      obtain ⟨k, v⟩ := p
      simp [decodeOptionEntries, ih]

/-- Helper: decoding an encoded question recovers it unchanged. -/
theorem decode_encode (q : Question) : decodeQuestion (encodeQuestion q) = some q := by
  simp [decodeQuestion, encodeQuestion, decodeOptionEntries_map]

/-- Claim C10: every successful generate click, from any prior state,
replaces the question list with the freshly fetched list, sets the
generated flag, and resets the selections dict to empty; the session
state has no other field, so nothing else is changed by generation. -/
theorem c10_generate_effect (s : SessionState) (fetched : List Question) :
    (generateAction s fetched).questions = fetched ∧
    (generateAction s fetched).quiz_generated = true ∧
    (generateAction s fetched).selected_options = [] :=
  ⟨rfl, rfl, rfl⟩

/-- Claim C1 fails as stated: the reset action leaves the stored question
list in place, so the questions field is not cleared. -/
theorem c1_counterexample :
    ¬ (∀ s : SessionState,
        (resetAction s).questions = [] ∧
        (resetAction s).selected_options = [] ∧
        (resetAction s).quiz_generated = false) := by
  intro h
  have h1 := (h { questions := [sampleQuestion], selected_options := [],
                  quiz_generated := true }).1
  simp [resetAction] at h1

/-- Claim C1 (amended): reset returns the controller to Idle by setting
the generated flag to false and clearing the selections; the questions
field is left unchanged, and a subsequent generation call still starts
from a clean state because generation replaces the questions and resets
the selections itself. -/
theorem c1_reset_effect (s : SessionState) :
    (resetAction s).quiz_generated = false ∧
    (resetAction s).selected_options = [] ∧
    (resetAction s).questions = s.questions ∧
    ∀ fetched : List Question,
      generateAction (resetAction s) fetched =
        { questions := fetched, selected_options := [], quiz_generated := true } :=
  ⟨rfl, rfl, rfl, fun _ => rfl⟩

/-- Claim C4: with an empty stored question list the score-percentage
computation is a division by zero (`none` models the raised
`ZeroDivisionError`), and a generated session whose question list is
empty is reachable, so that faulting submission can actually occur. -/
theorem c4_empty_division (sel : List (Nat × String)) :
    score_percentage [] sel = none ∧
    Reachable (generateAction initialState []) ∧
    (generateAction initialState []).questions = [] ∧
    (generateAction initialState []).quiz_generated = true :=
  ⟨rfl, Relation.ReflTransGen.single (Step.generate initialState []), rfl, rfl⟩

/-- Claim C9: a response parsing to a JSON object without the key `mcqs`
makes `fetch_questions` return the empty list through the defaulted
lookup, with no error raised. -/
theorem c9_missing_key (fields : List (String × JVal))
    (h : fields.lookup ("mcqs") = none) :
    fetch_questions_result (some (JVal.obj fields)) = Except.ok (JVal.arr []) := by
  simp [fetch_questions_result, dict_get, h]

/-- Claim C9 witness: the empty JSON object. -/
theorem c9_witness :
    fetch_questions_result (some (JVal.obj [])) = Except.ok (JVal.arr []) :=
  c9_missing_key [] rfl

/-- Claim C2 fails as stated: a response that parses to a JSON value that
is not an object (here the valid JSON text for the empty array) makes
the extraction raise an `AttributeError` that the handler does not
catch, instead of returning the empty list. -/
theorem c2_counterexample :
    ¬ (∀ parsed : Option JVal, ∃ v, fetch_questions_result parsed = Except.ok v) := by
  intro h
  obtain ⟨v, hv⟩ := h (some (JVal.arr []))
  exact Except.noConfusion hv

/-- Claim C2 (amended): when JSON parsing itself fails the handler
returns the empty list and no error escapes, and an object response
yields the defaulted lookup; but a response parsing to a non-object JSON
value raises an uncaught `AttributeError`, so not every malformed
response is degraded to the empty list. -/
theorem c2_parse_failure (parsed : Option JVal) :
    (parsed = none → fetch_questions_result parsed = Except.ok (JVal.arr [])) ∧
    (∀ fields, parsed = some (JVal.obj fields) →
      fetch_questions_result parsed = Except.ok (dict_get fields ("mcqs") (JVal.arr []))) ∧
    (∀ j, parsed = some j → (∀ fields, j ≠ JVal.obj fields) →
      fetch_questions_result parsed = Except.error ("AttributeError")) := by
  refine ⟨?_, ?_, ?_⟩
  · rintro rfl
    rfl
  · rintro fields rfl
    rfl
  · rintro j rfl hj
    cases j with
    | obj fields => exact absurd rfl (hj fields)
    | null => rfl
    | bool b => rfl
    | num n => rfl
    | str s => rfl
    | arr l => rfl

/-- Claim C2 witness: a failed JSON parse yields the empty list. -/
theorem c2_witness :
    fetch_questions_result none = Except.ok (JVal.arr []) :=
  (c2_parse_failure none).1 rfl

/-- Claim C5 fails as stated: with the empty string stored as the
selected key (possible since the stored key is the radio label part
before the first colon), the selection is present and differs from the
correct key, yet the display takes the no-answer branch, so a
wrong-but-present selection is not always reported distinctly from a
missing one. -/
theorem c5_counterexample :
    ¬ (∀ (q : Question) (i : Nat) (sel : List (Nat × String)),
        (questionMark sel i q = 1 ↔ sel.lookup i = some q.correct) ∧
        (sel.lookup i = none →
          questionMark sel i q = 0 ∧ reportOf sel i = AnswerReport.noAnswer) ∧
        (∀ k, sel.lookup i = some k → k ≠ q.correct →
          questionMark sel i q = 0 ∧ reportOf sel i = AnswerReport.selectedAnswer k)) := by
  intro h
  have h1 := ((h sampleQuestion 0 [(0, (""))]).2.2 ("") rfl (by decide)).2
  exact AnswerReport.noConfusion h1

/-- Claim C5 (amended): a question is counted correct exactly when the
stored selection is string-equal to its correct key, and otherwise
(including no selection at all) it is counted incorrect; a missing
selection is reported as no answer; a present selection is reported
distinctly whenever the stored key is nonempty — an empty stored key is
reported as no answer because the display tests Python truthiness. -/
theorem c5_scoring (q : Question) (i : Nat) (sel : List (Nat × String)) :
    (questionMark sel i q = 1 ↔ sel.lookup i = some q.correct) ∧
    (questionMark sel i q = 0 ↔ sel.lookup i ≠ some q.correct) ∧
    (sel.lookup i = none → reportOf sel i = AnswerReport.noAnswer) ∧
    (∀ k, sel.lookup i = some k → k ≠ "" →
      reportOf sel i = AnswerReport.selectedAnswer k) := by
  refine ⟨?_, ?_, ?_, ?_⟩
  · constructor
    · intro h1
      by_contra hne
      simp [questionMark, hne] at h1
    · intro h1
      simp [questionMark, h1]
  · constructor
    · intro h1
      intro hne
      simp [questionMark, hne] at h1
    · intro h1
      simp [questionMark, h1]
  · intro h1
    simp [reportOf, h1]
  · intro k h1 h2
    simp [reportOf, h1, h2]

/-- Claim C5 witness: a selection equal to the correct key earns the
mark. -/
theorem c5_witness :
    questionMark [(0, ("a"))] 0 sampleQuestion = 1 :=
  (c5_scoring sampleQuestion 0 [(0, ("a"))]).1.mpr rfl

/-- Claim C6: for every computed score percentage the feedback tier is
selected by the stated boundaries: exactly 100 gives the top tier, at
least 80 but below 100 the high tier, at least 50 but below 80 the mid
tier, and below 50 the low tier. -/
theorem c6_feedback_tiers (qs : List Question) (sel : List (Nat × String)) (p : ℚ)
    (_h : score_percentage qs sel = some p) :
    (p = 100 → feedback p = FeedbackTier.topTier) ∧
    (80 ≤ p ∧ p < 100 → feedback p = FeedbackTier.highTier) ∧
    (50 ≤ p ∧ p < 80 → feedback p = FeedbackTier.midTier) ∧
    (p < 50 → feedback p = FeedbackTier.lowTier) := by
  refine ⟨fun h1 => ?_, fun h1 => ?_, fun h1 => ?_, fun h1 => ?_⟩
  · simp [feedback, h1]
  · have hne : p ≠ 100 := by linarith [h1.2]
    have h80 : 80 ≤ p := h1.1
    simp [feedback, hne, h80]
  · have hne : p ≠ 100 := by linarith [h1.2]
    have h80 : ¬ (80 ≤ p) := by linarith [h1.2]
    have h50 : 50 ≤ p := h1.1
    simp [feedback, hne, h80, h50]
  · have hne : p ≠ 100 := by linarith
    have h80 : ¬ (80 ≤ p) := by linarith
    have h50 : ¬ (50 ≤ p) := by linarith
    simp [feedback, hne, h80, h50]

/-- Claim C6 witness: a fully correct single-question quiz scores 100
and lands in the top tier. -/
theorem c6_witness : feedback 100 = FeedbackTier.topTier :=
  (c6_feedback_tiers [sampleQuestion] [(0, ("a"))] 100 (by
    have hm : marksOf [sampleQuestion] [(0, ("a"))] = 1 := rfl
    have hl : ([sampleQuestion] : List Question).length = 1 := rfl
    simp [score_percentage, hm, hl])).1 rfl

/-- Claim C3 fails as stated: fetched questions are stored unvalidated,
so one generate click whose parsed response holds a question whose
correct key is missing from its options reaches a state violating the
correct-key half of the invariant; the display lookup of the correct
option fails there. -/
theorem c3_counterexample :
    ¬ (∀ s : SessionState, Reachable s → selectionsKeysValid s ∧ correctKeysValid s) := by
  intro h
  have hr : Reachable (generateAction initialState [badQuestion]) :=
    Relation.ReflTransGen.single (Step.generate initialState [badQuestion])
  have h2 := (h _ hr).2 badQuestion (by simp [generateAction])
  exact absurd h2 (by decide)

/-- Claim C3 (amended): in every reachable session state the recorded
selection keys are indices of current questions; the correct-key half of
the claimed invariant is not maintained by the code, because fetched
questions are stored without validation. -/
theorem c3_selections_invariant (s : SessionState) (h : Reachable s) :
    selectionsKeysValid s := by
  induction h with
  | refl =>
      intro p hp
      simp [initialState] at hp
  | tail _ hstep ih =>
      cases hstep with
      | generate fetched =>
          intro p hp
          simp [generateAction] at hp
      | selectOption i key value _hg hi _hk =>
          intro p hp
          simp only [selectAction, recordSelection] at hp
          rcases List.mem_cons.1 hp with h1 | h1
          · subst h1
            exact hi
          · exact ih p ((List.mem_filter.1 h1).1)
      | reset _hg =>
          intro p hp
          simp [resetAction] at hp

/-- Claim C3 witness: the start state satisfies the selections half of
the invariant. -/
theorem c3_witness : selectionsKeysValid initialState :=
  c3_selections_invariant initialState Relation.ReflTransGen.refl

/-- Claim C7: a response parsing to a JSON object whose `mcqs` key holds
an array of well-formed question objects makes `fetch_questions` return
exactly that array: as many elements as questions, each decoding back to
the very question it encodes, so prompt, options and correct key are
preserved unchanged. -/
theorem c7_parser_preserves (qs : List Question) (fields : List (String × JVal))
    (h : fields.lookup ("mcqs") = some (JVal.arr (qs.map encodeQuestion))) :
    ∃ l : List JVal,
      fetch_questions_result (some (JVal.obj fields)) = Except.ok (JVal.arr l) ∧
      l.length = qs.length ∧
      ∀ (i : Nat) (hl : i < l.length) (hq : i < qs.length),
        decodeQuestion (l.get ⟨i, hl⟩) = some (qs.get ⟨i, hq⟩) := by
  refine ⟨qs.map encodeQuestion, ?_, by simp, ?_⟩
  · simp [fetch_questions_result, dict_get, h]
  · intro i hl hq
    simp only [List.get_eq_getElem, List.getElem_map]
    exact decode_encode _

/-- Claim C7 witness: a one-question response round-trips. -/
theorem c7_witness :
    ∃ l : List JVal,
      fetch_questions_result (some (JVal.obj [(("mcqs"),
          JVal.arr (List.map encodeQuestion [sampleQuestion]))])) = Except.ok (JVal.arr l) ∧
      l.length = ([sampleQuestion] : List Question).length ∧
      ∀ (i : Nat) (hl : i < l.length) (hq : i < ([sampleQuestion] : List Question).length),
        decodeQuestion (l.get ⟨i, hl⟩) = some (([sampleQuestion] : List Question).get ⟨i, hq⟩) :=
  c7_parser_preserves [sampleQuestion]
    [(("mcqs"), JVal.arr (List.map encodeQuestion [sampleQuestion]))] rfl

set_option maxRecDepth 10000 in
/-- Claim C8: for every text, difficulty label and question count from 1
to 20, the built prompt is nonempty and contains the difficulty label
and the decimal rendering of the count verbatim. -/
theorem c8_prompt_contents (text_content quiz_level : String) (num_questions : Nat)
    (_h1 : 1 ≤ num_questions) (_h2 : num_questions ≤ 20) :
    PROMPT_TEMPLATE text_content quiz_level num_questions ≠ "" ∧
    dataContains quiz_level (PROMPT_TEMPLATE text_content quiz_level num_questions) ∧
    dataContains (toString num_questions)
      (PROMPT_TEMPLATE text_content quiz_level num_questions) := by
  refine ⟨?_, ?_, ?_⟩
  · intro hEq
    have h0 := congrArg String.length hEq
    simp only [PROMPT_TEMPLATE, String.length_append] at h0
    have hz : ("" : String).length = 0 := rfl
    rw [hz] at h0
    have hp : 0 < promptPart1.length := by decide
    omega
  · exact ⟨(promptPart1 ++ toString num_questions ++ promptPart2).data,
      (promptPart3 ++ text_content ++ promptPart4 ++ RESPONSE_JSON_dump ++ promptPart5).data,
      by simp [PROMPT_TEMPLATE, String.data_append, List.append_assoc]⟩
  · exact ⟨promptPart1.data,
      (promptPart2 ++ quiz_level ++ promptPart3 ++ text_content ++ promptPart4
        ++ RESPONSE_JSON_dump ++ promptPart5).data,
      by simp [PROMPT_TEMPLATE, String.data_append, List.append_assoc]⟩

/-- Claim C8 witness: a concrete prompt for five easy questions. -/
theorem c8_witness :
    PROMPT_TEMPLATE ("some text") ("Easy") 5 ≠ "" ∧
    dataContains ("Easy") (PROMPT_TEMPLATE ("some text") ("Easy") 5) ∧
    dataContains (toString 5) (PROMPT_TEMPLATE ("some text") ("Easy") 5) :=
  c8_prompt_contents ("some text") ("Easy") 5 (by decide) (by decide)

end QuizApp
